import Mathlib

/-!
Shallow embedding of the `caps` library (Linux capabilities, `src/lib.rs`):
the `Capability` and `CapSet` enumerations, name formatting and parsing,
`bitmask`/`index`, `all()`, and the dispatch layer for the six public
operations (`has_cap`, `read`, `set`, `clear`, `raise`, `drop`).

The repository modules `nr` (kernel capability numbers), `errors`,
`base`, `ambient` and `bounding` are not part of the sources given; the
kernel indices and the error-kind type are modelled from the spec, and
the backends are represented abstractly: the dispatch functions return
the backend call they would issue, or the error they produce instead.
-/

namespace Caps

/-- Linux capabilities sets (enum `CapSet` in `lib.rs`). -/
inductive CapSet
  | Ambient
  | Bounding
  | Effective
  | Inheritable
  | Permitted
deriving DecidableEq, Repr

/-- Linux capabilities (enum `Capability` in `lib.rs`), all 38 variants in
source order. The numeric discriminants come from the `nr` module. -/
inductive Capability
  | CAP_CHOWN
  | CAP_DAC_OVERRIDE
  | CAP_DAC_READ_SEARCH
  | CAP_FOWNER
  | CAP_FSETID
  | CAP_KILL
  | CAP_SETGID
  | CAP_SETUID
  | CAP_SETPCAP
  | CAP_LINUX_IMMUTABLE
  | CAP_NET_BIND_SERVICE
  | CAP_NET_BROADCAST
  | CAP_NET_ADMIN
  | CAP_NET_RAW
  | CAP_IPC_LOCK
  | CAP_IPC_OWNER
  | CAP_SYS_MODULE
  | CAP_SYS_RAWIO
  | CAP_SYS_CHROOT
  | CAP_SYS_PTRACE
  | CAP_SYS_PACCT
  | CAP_SYS_ADMIN
  | CAP_SYS_BOOT
  | CAP_SYS_NICE
  | CAP_SYS_RESOURCE
  | CAP_SYS_TIME
  | CAP_SYS_TTY_CONFIG
  | CAP_MKNOD
  | CAP_LEASE
  | CAP_AUDIT_WRITE
  | CAP_AUDIT_CONTROL
  | CAP_SETFCAP
  | CAP_MAC_OVERRIDE
  | CAP_MAC_ADMIN
  | CAP_SYSLOG
  | CAP_WAKE_ALARM
  | CAP_BLOCK_SUSPEND
  | CAP_AUDIT_READ
deriving DecidableEq, Repr, Fintype

open Capability

/-- Modelled from the spec: the `nr` module holding the kernel-defined
capability numbers is not among the given sources. Per the spec the index is
"a fixed, kernel-defined small integer index (0..~40)" "matching the running
kernel's capability-bit ordering"; these are the Linux kernel values
CAP_CHOWN = 0 through CAP_AUDIT_READ = 37, in the enumeration's order.
`Capability.index` itself embeds `(*self as u8)` from `lib.rs`. -/
def Capability.index : Capability → Nat
  | CAP_CHOWN => 0
  | CAP_DAC_OVERRIDE => 1
  | CAP_DAC_READ_SEARCH => 2
  | CAP_FOWNER => 3
  | CAP_FSETID => 4
  | CAP_KILL => 5
  | CAP_SETGID => 6
  | CAP_SETUID => 7
  | CAP_SETPCAP => 8
  | CAP_LINUX_IMMUTABLE => 9
  | CAP_NET_BIND_SERVICE => 10
  | CAP_NET_BROADCAST => 11
  | CAP_NET_ADMIN => 12
  | CAP_NET_RAW => 13
  | CAP_IPC_LOCK => 14
  | CAP_IPC_OWNER => 15
  | CAP_SYS_MODULE => 16
  | CAP_SYS_RAWIO => 17
  | CAP_SYS_CHROOT => 18
  | CAP_SYS_PTRACE => 19
  | CAP_SYS_PACCT => 20
  | CAP_SYS_ADMIN => 21
  | CAP_SYS_BOOT => 22
  | CAP_SYS_NICE => 23
  | CAP_SYS_RESOURCE => 24
  | CAP_SYS_TIME => 25
  | CAP_SYS_TTY_CONFIG => 26
  | CAP_MKNOD => 27
  | CAP_LEASE => 28
  | CAP_AUDIT_WRITE => 29
  | CAP_AUDIT_CONTROL => 30
  | CAP_SETFCAP => 31
  | CAP_MAC_OVERRIDE => 32
  | CAP_MAC_ADMIN => 33
  | CAP_SYSLOG => 34
  | CAP_WAKE_ALARM => 35
  | CAP_BLOCK_SUSPEND => 36
  | CAP_AUDIT_READ => 37

/-- `Capability::bitmask`: `1u64 << (*self as u8)`, a 64-bit shift. -/
def Capability.bitmask (c : Capability) : Nat :=
  (1 <<< c.index) % 2 ^ 64

/-- Modelled from the spec: the `errors` module (`mod errors` in `lib.rs`)
is not among the given sources. Per the spec there are three error kinds:
unsupported-operation (a statically illegal (operation, set, thread-target)
combination, produced before any syscall), syscall failure (carrying the OS
error code), and invalid capability name (carrying the offending string). -/
inductive ErrorKind
  | UnsupportedOperation
  | Syscall (code : Int)
  | InvalidCapName (s : String)
deriving DecidableEq, Repr

/-- `impl Display for Capability` (`fmt` in `lib.rs`): the canonical kernel
name of each capability. -/
def Capability.fmt : Capability → String
  | CAP_CHOWN => "CAP_CHOWN"
  | CAP_DAC_OVERRIDE => "CAP_DAC_OVERRIDE"
  | CAP_DAC_READ_SEARCH => "CAP_DAC_READ_SEARCH"
  | CAP_FOWNER => "CAP_FOWNER"
  | CAP_FSETID => "CAP_FSETID"
  | CAP_KILL => "CAP_KILL"
  | CAP_SETGID => "CAP_SETGID"
  | CAP_SETUID => "CAP_SETUID"
  | CAP_SETPCAP => "CAP_SETPCAP"
  | CAP_LINUX_IMMUTABLE => "CAP_LINUX_IMMUTABLE"
  | CAP_NET_BIND_SERVICE => "CAP_NET_BIND_SERVICE"
  | CAP_NET_BROADCAST => "CAP_NET_BROADCAST"
  | CAP_NET_ADMIN => "CAP_NET_ADMIN"
  | CAP_NET_RAW => "CAP_NET_RAW"
  | CAP_IPC_LOCK => "CAP_IPC_LOCK"
  | CAP_IPC_OWNER => "CAP_IPC_OWNER"
  | CAP_SYS_MODULE => "CAP_SYS_MODULE"
  | CAP_SYS_RAWIO => "CAP_SYS_RAWIO"
  | CAP_SYS_CHROOT => "CAP_SYS_CHROOT"
  | CAP_SYS_PTRACE => "CAP_SYS_PTRACE"
  | CAP_SYS_PACCT => "CAP_SYS_PACCT"
  | CAP_SYS_ADMIN => "CAP_SYS_ADMIN"
  | CAP_SYS_BOOT => "CAP_SYS_BOOT"
  | CAP_SYS_NICE => "CAP_SYS_NICE"
  | CAP_SYS_RESOURCE => "CAP_SYS_RESOURCE"
  | CAP_SYS_TIME => "CAP_SYS_TIME"
  | CAP_SYS_TTY_CONFIG => "CAP_SYS_TTY_CONFIG"
  | CAP_MKNOD => "CAP_MKNOD"
  | CAP_LEASE => "CAP_LEASE"
  | CAP_AUDIT_WRITE => "CAP_AUDIT_WRITE"
  | CAP_AUDIT_CONTROL => "CAP_AUDIT_CONTROL"
  | CAP_SETFCAP => "CAP_SETFCAP"
  | CAP_MAC_OVERRIDE => "CAP_MAC_OVERRIDE"
  | CAP_MAC_ADMIN => "CAP_MAC_ADMIN"
  | CAP_SYSLOG => "CAP_SYSLOG"
  | CAP_WAKE_ALARM => "CAP_WAKE_ALARM"
  | CAP_BLOCK_SUSPEND => "CAP_BLOCK_SUSPEND"
  | CAP_AUDIT_READ => "CAP_AUDIT_READ"

/-- `impl FromStr for Capability` (`from_str` in `lib.rs`): match the string
against the 38 canonical names, otherwise `Err(ErrorKind::InvalidCapName(s))`. -/
def Capability.from_str (s : String) : Except ErrorKind Capability :=
  match s with
  | "CAP_CHOWN" => .ok CAP_CHOWN
  | "CAP_DAC_OVERRIDE" => .ok CAP_DAC_OVERRIDE
  | "CAP_DAC_READ_SEARCH" => .ok CAP_DAC_READ_SEARCH
  | "CAP_FOWNER" => .ok CAP_FOWNER
  | "CAP_FSETID" => .ok CAP_FSETID
  | "CAP_KILL" => .ok CAP_KILL
  | "CAP_SETGID" => .ok CAP_SETGID
  | "CAP_SETUID" => .ok CAP_SETUID
  | "CAP_SETPCAP" => .ok CAP_SETPCAP
  | "CAP_LINUX_IMMUTABLE" => .ok CAP_LINUX_IMMUTABLE
  | "CAP_NET_BIND_SERVICE" => .ok CAP_NET_BIND_SERVICE
  | "CAP_NET_BROADCAST" => .ok CAP_NET_BROADCAST
  | "CAP_NET_ADMIN" => .ok CAP_NET_ADMIN
  | "CAP_NET_RAW" => .ok CAP_NET_RAW
  | "CAP_IPC_LOCK" => .ok CAP_IPC_LOCK
  | "CAP_IPC_OWNER" => .ok CAP_IPC_OWNER
  | "CAP_SYS_MODULE" => .ok CAP_SYS_MODULE
  | "CAP_SYS_RAWIO" => .ok CAP_SYS_RAWIO
  | "CAP_SYS_CHROOT" => .ok CAP_SYS_CHROOT
  | "CAP_SYS_PTRACE" => .ok CAP_SYS_PTRACE
  | "CAP_SYS_PACCT" => .ok CAP_SYS_PACCT
  | "CAP_SYS_ADMIN" => .ok CAP_SYS_ADMIN
  | "CAP_SYS_BOOT" => .ok CAP_SYS_BOOT
  | "CAP_SYS_NICE" => .ok CAP_SYS_NICE
  | "CAP_SYS_RESOURCE" => .ok CAP_SYS_RESOURCE
  | "CAP_SYS_TIME" => .ok CAP_SYS_TIME
  | "CAP_SYS_TTY_CONFIG" => .ok CAP_SYS_TTY_CONFIG
  | "CAP_MKNOD" => .ok CAP_MKNOD
  | "CAP_LEASE" => .ok CAP_LEASE
  | "CAP_AUDIT_WRITE" => .ok CAP_AUDIT_WRITE
  | "CAP_AUDIT_CONTROL" => .ok CAP_AUDIT_CONTROL
  | "CAP_SETFCAP" => .ok CAP_SETFCAP
  | "CAP_MAC_OVERRIDE" => .ok CAP_MAC_OVERRIDE
  | "CAP_MAC_ADMIN" => .ok CAP_MAC_ADMIN
  | "CAP_SYSLOG" => .ok CAP_SYSLOG
  | "CAP_WAKE_ALARM" => .ok CAP_WAKE_ALARM
  | "CAP_BLOCK_SUSPEND" => .ok CAP_BLOCK_SUSPEND
  | "CAP_AUDIT_READ" => .ok CAP_AUDIT_READ
  | _ => .error (.InvalidCapName s)

/-- The vector literal built inside `all()` in `lib.rs`, in source order. -/
def allVec : List Capability := [
  CAP_CHOWN,
  CAP_DAC_OVERRIDE,
  CAP_DAC_READ_SEARCH,
  CAP_FOWNER,
  CAP_FSETID,
  CAP_KILL,
  CAP_SETGID,
  CAP_SETUID,
  CAP_SETPCAP,
  CAP_LINUX_IMMUTABLE,
  CAP_NET_BIND_SERVICE,
  CAP_NET_BROADCAST,
  CAP_NET_ADMIN,
  CAP_NET_RAW,
  CAP_IPC_LOCK,
  CAP_IPC_OWNER,
  CAP_SYS_MODULE,
  CAP_SYS_RAWIO,
  CAP_SYS_CHROOT,
  CAP_SYS_PTRACE,
  CAP_SYS_PACCT,
  CAP_SYS_ADMIN,
  CAP_SYS_BOOT,
  CAP_SYS_NICE,
  CAP_SYS_RESOURCE,
  CAP_SYS_TIME,
  CAP_SYS_TTY_CONFIG,
  CAP_MKNOD,
  CAP_LEASE,
  CAP_AUDIT_WRITE,
  CAP_AUDIT_CONTROL,
  CAP_SETFCAP,
  CAP_MAC_OVERRIDE,
  CAP_MAC_ADMIN,
  CAP_SYSLOG,
  CAP_WAKE_ALARM,
  CAP_BLOCK_SUSPEND,
  CAP_AUDIT_READ ]

/-- `all()` in `lib.rs`: `CapsHashSet::from_iter(slice)` — the hash set built
from `allVec`, embedded as the corresponding finite set. -/
def all : Finset Capability := allVec.toFinset

/-- A call into one of the three backend modules (`base`, `ambient`,
`bounding`), with the arguments the dispatch layer passes. The backend
implementations are not among the given sources; the dispatch functions
below return the call they would issue, so routing is observable. -/
inductive BackendCall
  | ambientHas (cap : Capability)
  | boundingHas (cap : Capability)
  | baseHas (t : Int) (cset : CapSet) (cap : Capability)
  | ambientRead
  | boundingRead
  | baseRead (t : Int) (cset : CapSet)
  | ambientSet (value : List Capability)
  | baseSet (t : Int) (cset : CapSet) (value : List Capability)
  | ambientClear
  | boundingClear
  | baseClear (t : Int) (cset : CapSet)
  | ambientRaise (cap : Capability)
  | baseRaise (t : Int) (cset : CapSet) (cap : Capability)
  | ambientDrop (cap : Capability)
  | boundingDrop (cap : Capability)
  | baseDrop (t : Int) (cset : CapSet) (cap : Capability)
deriving DecidableEq, Repr

/-- `has_cap` in `lib.rs`: dispatch of the membership test. -/
def has_cap (tid : Option Int) (cset : CapSet) (cap : Capability) :
    Except ErrorKind BackendCall :=
  let t := tid.getD 0
  match cset with
  | .Ambient => if t = 0 then .ok (.ambientHas cap) else .error .UnsupportedOperation
  | .Bounding => if t = 0 then .ok (.boundingHas cap) else .error .UnsupportedOperation
  | .Effective | .Inheritable | .Permitted => .ok (.baseHas t cset cap)

/-- `read` in `lib.rs`: dispatch of the bulk read. -/
def read (tid : Option Int) (cset : CapSet) : Except ErrorKind BackendCall :=
  let t := tid.getD 0
  match cset with
  | .Ambient => if t = 0 then .ok .ambientRead else .error .UnsupportedOperation
  | .Bounding => if t = 0 then .ok .boundingRead else .error .UnsupportedOperation
  | .Effective | .Inheritable | .Permitted => .ok (.baseRead t cset)

/-- `set` in `lib.rs`: dispatch of the bulk assignment. No Bounding arm:
the catch-all produces the unsupported-operation error. -/
def set (tid : Option Int) (cset : CapSet) (value : List Capability) :
    Except ErrorKind BackendCall :=
  let t := tid.getD 0
  match cset with
  | .Ambient => if t = 0 then .ok (.ambientSet value) else .error .UnsupportedOperation
  | .Effective | .Inheritable | .Permitted => .ok (.baseSet t cset value)
  | .Bounding => .error .UnsupportedOperation

/-- `clear` in `lib.rs`: dispatch of the clear-all operation. -/
def clear (tid : Option Int) (cset : CapSet) : Except ErrorKind BackendCall :=
  let t := tid.getD 0
  match cset with
  | .Ambient => if t = 0 then .ok .ambientClear else .error .UnsupportedOperation
  | .Bounding => if t = 0 then .ok .boundingClear else .error .UnsupportedOperation
  | .Effective | .Permitted | .Inheritable => .ok (.baseClear t cset)

/-- `raise` in `lib.rs`: dispatch of the single-capability raise. No
Bounding arm: the catch-all produces the unsupported-operation error. -/
def raise (tid : Option Int) (cset : CapSet) (cap : Capability) :
    Except ErrorKind BackendCall :=
  let t := tid.getD 0
  match cset with
  | .Ambient => if t = 0 then .ok (.ambientRaise cap) else .error .UnsupportedOperation
  | .Effective | .Permitted | .Inheritable => .ok (.baseRaise t cset cap)
  | .Bounding => .error .UnsupportedOperation

/-- `drop` in `lib.rs`: dispatch of the single-capability drop. -/
def drop (tid : Option Int) (cset : CapSet) (cap : Capability) :
    Except ErrorKind BackendCall :=
  let t := tid.getD 0
  match cset with
  | .Ambient => if t = 0 then .ok (.ambientDrop cap) else .error .UnsupportedOperation
  | .Bounding => if t = 0 then .ok (.boundingDrop cap) else .error .UnsupportedOperation
  | .Effective | .Permitted | .Inheritable => .ok (.baseDrop t cset cap)

/-- The six public operation kinds of the dispatch layer. -/
inductive Op
  | has
  | readAll
  | setAll
  | clearAll
  | raiseOne
  | dropOne
deriving DecidableEq, Repr

/-- The dispatch entry point selected by operation kind, with one capability
and one collection available as arguments for the operations that take them. -/
def dispatch (op : Op) (tid : Option Int) (cset : CapSet) (cap : Capability)
    (value : List Capability) : Except ErrorKind BackendCall :=
  match op with
  | .has => has_cap tid cset cap
  | .readAll => read tid cset
  | .setAll => set tid cset value
  | .clearAll => clear tid cset
  | .raiseOne => raise tid cset cap
  | .dropOne => drop tid cset cap

/-- The legality matrix as written in the spec (section 4.1): POSIX sets
accept any thread; Ambient accepts the current thread (t = 0) for every
operation; Bounding never accepts `set` or `raise` and accepts the current
thread for the rest. -/
def legalSpec (op : Op) (cset : CapSet) (t : Int) : Bool :=
  match cset, op with
  | .Effective, _ | .Inheritable, _ | .Permitted, _ => true
  | .Ambient, _ => decide (t = 0)
  | .Bounding, .setAll | .Bounding, .raiseOne => false
  | .Bounding, _ => decide (t = 0)

/-- C1: for the Bounding set, `raise` and bulk `set` fail with the
unsupported-operation error for every capability, collection and thread
target (including the current thread); no backend call is produced. -/
theorem bounding_raise_set_unsupported (tid : Option Int) (cap : Capability)
    (value : List Capability) :
    raise tid .Bounding cap = .error .UnsupportedOperation ∧
    set tid .Bounding value = .error .UnsupportedOperation :=
  ⟨rfl, rfl⟩

/-- C2: for Ambient and Bounding, every public operation invoked with an
explicit thread id other than the current thread (tid different from 0)
fails with the unsupported-operation error; no backend call is produced. -/
theorem ambient_bounding_other_tid_unsupported (t : Int) (ht : t ≠ 0)
    (cset : CapSet) (hc : cset = .Ambient ∨ cset = .Bounding)
    (cap : Capability) (value : List Capability) :
    has_cap (some t) cset cap = .error .UnsupportedOperation ∧
    read (some t) cset = .error .UnsupportedOperation ∧
    set (some t) cset value = .error .UnsupportedOperation ∧
    clear (some t) cset = .error .UnsupportedOperation ∧
    raise (some t) cset cap = .error .UnsupportedOperation ∧
    drop (some t) cset cap = .error .UnsupportedOperation := by
  rcases hc with h | h <;> subst h <;>
    simp [has_cap, read, set, clear, raise, drop, ht]

/-- Witness for C2: thread id 1 with the Ambient set. -/
theorem ambient_bounding_other_tid_unsupported_witness :
    (1 : Int) ≠ 0 ∧
    (CapSet.Ambient = CapSet.Ambient ∨ CapSet.Ambient = CapSet.Bounding) ∧
    has_cap (some 1) .Ambient .CAP_CHOWN = .error .UnsupportedOperation ∧
    read (some 1) .Ambient = .error .UnsupportedOperation ∧
    set (some 1) .Ambient [] = .error .UnsupportedOperation ∧
    clear (some 1) .Ambient = .error .UnsupportedOperation ∧
    raise (some 1) .Ambient .CAP_CHOWN = .error .UnsupportedOperation ∧
    drop (some 1) .Ambient .CAP_CHOWN = .error .UnsupportedOperation :=
  ⟨by decide, Or.inl rfl,
    ambient_bounding_other_tid_unsupported 1 (by decide) .Ambient (Or.inl rfl)
      .CAP_CHOWN []⟩

/-- C3: for the Effective, Inheritable and Permitted sets, each of the six
public operations accepts any thread id and routes to the POSIX-sets
backend; the unsupported-operation error is never returned. -/
theorem posix_sets_accept_any_tid (tid : Option Int) (cset : CapSet)
    (hc : cset = .Effective ∨ cset = .Inheritable ∨ cset = .Permitted)
    (cap : Capability) (value : List Capability) :
    has_cap tid cset cap = .ok (.baseHas (tid.getD 0) cset cap) ∧
    read tid cset = .ok (.baseRead (tid.getD 0) cset) ∧
    set tid cset value = .ok (.baseSet (tid.getD 0) cset value) ∧
    clear tid cset = .ok (.baseClear (tid.getD 0) cset) ∧
    raise tid cset cap = .ok (.baseRaise (tid.getD 0) cset cap) ∧
    drop tid cset cap = .ok (.baseDrop (tid.getD 0) cset cap) := by
  rcases hc with h | h | h <;> subst h <;> exact ⟨rfl, rfl, rfl, rfl, rfl, rfl⟩

/-- Witness for C3: thread id 42 with the Effective set. -/
theorem posix_sets_accept_any_tid_witness :
    (CapSet.Effective = CapSet.Effective ∨ CapSet.Effective = CapSet.Inheritable ∨
      CapSet.Effective = CapSet.Permitted) ∧
    has_cap (some 42) .Effective .CAP_SYS_NICE =
      .ok (.baseHas 42 .Effective .CAP_SYS_NICE) :=
  ⟨Or.inl rfl,
    (posix_sets_accept_any_tid (some 42) .Effective (Or.inl rfl)
      .CAP_SYS_NICE []).1⟩

/-- C4: for every capability, parsing the formatted canonical kernel name
yields the capability back (round-trip law). -/
theorem fmt_from_str_roundtrip :
    ∀ c : Capability, Capability.from_str (Capability.fmt c) = .ok c := by
  intro c; cases c <;> rfl

/-- C5: parsing any string that is not the canonical name of a known
capability fails with the invalid-capability-name error carrying the
offending string. -/
theorem from_str_unknown_name_invalid (s : String)
    (h : ∀ c : Capability, Capability.fmt c ≠ s) :
    Capability.from_str s = .error (.InvalidCapName s) := by
  unfold Capability.from_str
  split
  all_goals first
    | rfl
    | (exfalso; revert h; decide)

/-- Witness for C5: the string CAP_FOO. -/
theorem from_str_unknown_name_invalid_witness :
    (∀ c : Capability, Capability.fmt c ≠ "CAP_FOO") ∧
    Capability.from_str "CAP_FOO" = .error (.InvalidCapName "CAP_FOO") :=
  ⟨by decide, from_str_unknown_name_invalid "CAP_FOO" (by decide)⟩

/-- C6: `all()` is non-empty, duplicate-free, has exactly 38 elements (one
per statically defined `Capability` variant), and contains every variant. -/
theorem all_complete_nodup :
    all.card = 38 ∧ Fintype.card Capability = 38 ∧ allVec.Nodup ∧
    all.Nonempty ∧ ∀ c : Capability, c ∈ all :=
  ⟨by decide, by decide, by decide, ⟨.CAP_CHOWN, by decide⟩, by decide⟩

/-- C7: every capability's bitmask is exactly 1 shifted left by its index
in a 64-bit word (the reduction modulo 2^64 is the identity), the index is
below 64, and the bitmask is nonzero. -/
theorem bitmask_shift_in_range :
    ∀ c : Capability, Capability.bitmask c = 1 <<< Capability.index c ∧
      Capability.index c < 64 ∧ Capability.bitmask c ≠ 0 := by
  decide

/-- C8: an (operation, set, thread-target) combination produces the
unsupported-operation error exactly when the spec's legality matrix marks it
illegal, and that error is distinguishable from a syscall-failure error;
an error result carries no backend call. -/
theorem dispatch_matches_legality_matrix (op : Op) (tid : Option Int)
    (cset : CapSet) (cap : Capability) (value : List Capability) :
    (dispatch op tid cset cap value = .error .UnsupportedOperation ↔
      legalSpec op cset (tid.getD 0) = false) ∧
    (∀ code : Int, (ErrorKind.UnsupportedOperation : ErrorKind) ≠ .Syscall code) := by
  constructor
  · cases op <;> cases cset <;> by_cases ht : tid.getD 0 = 0 <;>
      simp [dispatch, has_cap, read, set, clear, raise, drop, legalSpec, ht]
  · intro code h; cases h

/-- C9: for every operation, capability set, capability and collection,
an explicit thread id of 0 behaves identically to the default (no thread
id): both stand for the current thread. -/
theorem tid_zero_same_as_none (cset : CapSet) (cap : Capability)
    (value : List Capability) :
    has_cap (some 0) cset cap = has_cap none cset cap ∧
    read (some 0) cset = read none cset ∧
    set (some 0) cset value = set none cset value ∧
    clear (some 0) cset = clear none cset ∧
    raise (some 0) cset cap = raise none cset cap ∧
    drop (some 0) cset cap = drop none cset cap :=
  ⟨rfl, rfl, rfl, rfl, rfl, rfl⟩

/-- C10: distinct capabilities have distinct indices and distinct bitmasks:
no two capabilities share a bit position. -/
theorem index_bitmask_injective (c d : Capability) (h : c ≠ d) :
    Capability.index c ≠ Capability.index d ∧
    Capability.bitmask c ≠ Capability.bitmask d := by
  revert c d; decide

/-- Witness for C10: CAP_CHOWN and CAP_DAC_OVERRIDE. -/
theorem index_bitmask_injective_witness :
    (Capability.CAP_CHOWN ≠ Capability.CAP_DAC_OVERRIDE) ∧
    (Capability.index .CAP_CHOWN ≠ Capability.index .CAP_DAC_OVERRIDE ∧
      Capability.bitmask .CAP_CHOWN ≠ Capability.bitmask .CAP_DAC_OVERRIDE) :=
  ⟨by decide, index_bitmask_injective .CAP_CHOWN .CAP_DAC_OVERRIDE (by decide)⟩

end Caps

